import Mathlib

/-!
A shallow embedding of the Kobo store client (`kobodl/kobo.py`): the
credential state, the token-refresh flow, the single-retry
reauthentication hook, the two pagination loops, download-encoding
selection and the download pipeline with its filesystem effects.
Network traffic and the filesystem are modelled by explicit scripted
worlds threaded through the definitions; every definition mirrors the
corresponding Python function.
-/

deriving instance DecidableEq for Except

/-- Errors raised by the client.  `KoboError` stands for `KoboException`
(protocol errors), `notAuthenticated` for `NotAuthenticatedException`,
`HTTPError` for the exception raised by `raise_for_status`, and
`ModelDiverge` is a modelling artifact marking that a scripted transport
ran out of responses (the Python loop would keep issuing requests). -/
inductive KError where
  | notAuthenticated (msg : String)
  | KoboError (msg : String)
  | HTTPError (status : Nat)
  | ModelDiverge
deriving Repr, DecidableEq

/-- Modelled from the spec: the success test of `raise_for_status` on the
external `requests` library; the spec treats any non-2xx status as a
transport error propagated to the caller. -/
def is2xx (status : Nat) : Bool := decide (200 ≤ status ∧ status < 300)

/-- The persisted credential record (`settings.User`): device id, user id,
user key, email and the bearer token pair. -/
structure UserState where
  DeviceId : String := ""
  UserId : String := ""
  UserKey : String := ""
  Email : String := ""
  AccessToken : String := ""
  RefreshToken : String := ""
deriving Repr, DecidableEq

/-- Modelled from the spec: `User.AreAuthenticationSettingsSet` lives in
`settings.py`, which is not among the sources at hand; the spec states
that a credential state is authenticated iff both tokens are non-empty. -/
def AreAuthenticationSettingsSet (u : UserState) : Bool :=
  decide (u.AccessToken.length > 0) && decide (u.RefreshToken.length > 0)

/-- Embeds `Kobo.__GetHeaderWithAccessToken`: the authorization header value. -/
def GetHeaderWithAccessToken (u : UserState) : String :=
  "Bearer " ++ u.AccessToken

/-- HTTP status plus the JSON body of a reply from the device-auth or
token-refresh endpoint. -/
structure AuthResponse where
  status : Nat := 200
  TokenType : String := "Bearer"
  AccessToken : String := ""
  RefreshToken : String := ""
  UserKey : String := ""
deriving Repr, DecidableEq

/-- Everything observable about one run of `Kobo.__RefreshAuthentication`:
what the refresh POST carried, the raised error or returned state, the
in-memory credential state afterwards, and whether settings were saved. -/
structure RefreshOutcome where
  sentAuthHeader : String
  sentRefreshToken : String
  result : Except KError UserState
  finalUser : UserState
  saved : Bool
deriving Repr, DecidableEq

/-- Embeds `Kobo.__RefreshAuthentication`: builds the authorization header from
the current (pre-refresh) access token, posts the current refresh token,
checks the HTTP status and the token type, overwrites both tokens with
the response values, re-validates that the state is authenticated, and
saves the settings only at the very end.  `resp` scripts the reply of the
refresh endpoint. -/
def RefreshAuthentication (u : UserState) (resp : AuthResponse) : RefreshOutcome :=
  let header := GetHeaderWithAccessToken u
  let sentRT := u.RefreshToken
  if !(is2xx resp.status) then
    { sentAuthHeader := header, sentRefreshToken := sentRT,
      result := .error (.HTTPError resp.status), finalUser := u, saved := false }
  else if resp.TokenType ≠ "Bearer" then
    { sentAuthHeader := header, sentRefreshToken := sentRT,
      result := .error (.KoboError ("Authentication refresh returned with an unsupported token type: \x27"
        ++ resp.TokenType ++ "\x27")),
      finalUser := u, saved := false }
  else
    let u2 : UserState :=
      { u with AccessToken := resp.AccessToken, RefreshToken := resp.RefreshToken }
    if !(AreAuthenticationSettingsSet u2) then
      { sentAuthHeader := header, sentRefreshToken := sentRT,
        result := .error (.KoboError "Authentication settings are not set after authentication refresh."),
        finalUser := u2, saved := false }
    else
      { sentAuthHeader := header, sentRefreshToken := sentRT,
        result := .ok u2, finalUser := u2, saved := true }

/-- A prepared HTTP request as far as the hook manipulates it: its
authorization header and whether the reauthentication hook is still
registered on it. -/
structure PreparedRequest where
  authHeader : String
  hasReauthHook : Bool
deriving Repr, DecidableEq

/-- The response handed back to the caller: its status, the request it
answers, and the statuses of earlier responses recorded in its history
(the hook appends the failed first response there). -/
structure HttpResponse where
  status : Nat
  request : PreparedRequest
  history : List Nat
deriving Repr, DecidableEq

/-- Scripted world for one request issued with the reauthentication
hook: what the refresh endpoint would answer, and the status of the
resent request should the hook retry. -/
structure HookWorld where
  refreshResp : AuthResponse
  retryStatus : Nat
deriving Repr, DecidableEq

/-- Everything observable about one request issued through
`Kobo.__GetReauthenticationHook` followed by the `raise_for_status`
of the caller: the returned response or raised error, how many
times the token refresh ran, the credential state afterwards, whether
the failed first response was drained and released, and the resent
request when a retry happened. -/
structure SendOutcome where
  result : Except KError HttpResponse
  refreshCount : Nat
  finalUser : UserState
  drainedFirst : Bool
  retriedRequest : Option PreparedRequest
deriving Repr, DecidableEq

/-- One authorized request issued the way every caller does it: headers
from `__GetHeaderWithAccessToken`, hooks from
`__GetReauthenticationHook`, then `raise_for_status` on whatever
response the hook pipeline yields.  On a 401 the hook consumes and
closes the failed response, refreshes the token, rebuilds the
authorization header from the now-current access token, deregisters
itself from the copied request, and resends it once; `firstStatus` and
`w` script the transport. -/
def sendWithReauthHook (u : UserState) (firstStatus : Nat) (w : HookWorld) : SendOutcome :=
  let req : PreparedRequest := { authHeader := GetHeaderWithAccessToken u, hasReauthHook := true }
  let r : HttpResponse := { status := firstStatus, request := req, history := [] }
  if firstStatus ≠ 401 then
    if is2xx firstStatus then
      { result := .ok r, refreshCount := 0, finalUser := u,
        drainedFirst := false, retriedRequest := none }
    else
      { result := .error (.HTTPError firstStatus), refreshCount := 0, finalUser := u,
        drainedFirst := false, retriedRequest := none }
  else
    let ro := RefreshAuthentication u w.refreshResp
    match ro.result with
    | .error e =>
      { result := .error e, refreshCount := 1, finalUser := ro.finalUser,
        drainedFirst := true, retriedRequest := none }
    | .ok u2 =>
      let prep : PreparedRequest :=
        { authHeader := GetHeaderWithAccessToken u2, hasReauthHook := false }
      let r2 : HttpResponse := { status := w.retryStatus, request := prep, history := [r.status] }
      if is2xx r2.status then
        { result := .ok r2, refreshCount := 1, finalUser := u2,
          drainedFirst := true, retriedRequest := some prep }
      else
        { result := .error (.HTTPError r2.status), refreshCount := 1, finalUser := u2,
          drainedFirst := true, retriedRequest := some prep }

/-- One entry of the `ContentUrls` list of a content access descriptor. -/
structure ContentUrl where
  DRMType : String
  UrlFormat : String
  DownloadUrl : String
deriving Repr, DecidableEq

/-- The JSON body returned by the `content_access_book` endpoint. -/
structure ContentAccessResponse where
  ContentKeys : Option (List (String × String)) := none
  ContentUrls : Option (List ContentUrl) := none
deriving Repr, DecidableEq

/-- Embeds `Kobo.__GetContentKeys`: the named decryption keys, an empty mapping
when the field is absent. -/
def GetContentKeys (resp : ContentAccessResponse) : List (String × String) :=
  match resp.ContentKeys with
  | none => []
  | some ks => ks

/-- The loop condition of `Kobo.__GetDownloadInfo`: DRM type `KDRM` or
`SignedNoDrm`, and format `EPUB3`, `KEPUB` or `EPUB3FL`. -/
def qualifies (cu : ContentUrl) : Bool :=
  (decide (cu.DRMType = "KDRM") || decide (cu.DRMType = "SignedNoDrm"))
    && (decide (cu.UrlFormat = "EPUB3") || decide (cu.UrlFormat = "KEPUB")
        || decide (cu.UrlFormat = "EPUB3FL"))

/-- The `for` loop of `Kobo.__GetDownloadInfo`: first qualifying tuple
wins, paired with `hasDrm` true exactly when its DRM type is `KDRM`. -/
def scanContentUrls : List ContentUrl → Option (String × Bool)
  | [] => none
  | cu :: rest =>
    if qualifies cu then some (cu.DownloadUrl, decide (cu.DRMType = "KDRM"))
    else scanContentUrls rest

/-- The error message listing every available format, built exactly as
`Kobo.__GetDownloadInfo` concatenates it. -/
def availableFormatsMessage (productId : String) (urls : List ContentUrl) : String :=
  urls.foldl
    (fun acc cu =>
      acc ++ ("\nDRMType: \x27" ++ cu.DRMType ++ "\x27, UrlFormat: \x27" ++ cu.UrlFormat ++ "\x27"))
    ("Download URL for supported formats can\x27t be found for product \x27" ++ productId
      ++ "\x27.\n" ++ "Available formats:")

/-- Embeds `Kobo.__GetDownloadInfo`: absent `ContentUrls` and the empty list
each raise their own `KoboException`; otherwise the list is scanned in
order and a miss raises the format-enumerating `KoboException`. -/
def GetDownloadInfo (productId : String) (resp : ContentAccessResponse) :
    Except KError (String × Bool) :=
  match resp.ContentUrls with
  | none =>
    .error (.KoboError ("Download URL can\x27t be found for product \x27" ++ productId ++ "\x27."))
  | some urls =>
    if urls.length = 0 then
      .error (.KoboError ("Download URL list is empty for product \x27" ++ productId
        ++ "\x27. If this is an archived book then it must be unarchived first on the Kobo website (https://www.kobo.com/help/en-US/article/1799/restoring-deleted-books-or-magazines)."))
    else
      match scanContentUrls urls with
      | some info => .ok info
      | none => .error (.KoboError (availableFormatsMessage productId urls))

/-- One scripted reply of the `user_wishlist` endpoint: HTTP status, the
`Items` field, and the `TotalPageCount` field. -/
structure WishPage where
  status : Nat := 200
  Items : List String := []
  TotalPageCount : Nat := 0
deriving Repr, DecidableEq

/-- The `while` loop of `Kobo.GetMyWishList`: fetch the page at the
current zero-based index with `PageSize` 100, record the request as the
pair `(PageIndex, PageSize)`, extend the accumulated items, increment
the index, and stop once the index reaches the `TotalPageCount` the
response just reported.  `world` scripts the endpoint, `fuel` bounds the
number of iterations of this otherwise possibly endless loop. -/
def GetMyWishListAux (world : Nat → WishPage) :
    Nat → Nat → List String → List (Nat × Nat) → Except KError (List String) × List (Nat × Nat)
  | 0, _, _, reqs => (.error .ModelDiverge, reqs)
  | fuel + 1, currentPageIndex, items, reqs =>
    let page := world currentPageIndex
    let reqs2 := reqs ++ [(currentPageIndex, 100)]
    if !(is2xx page.status) then (.error (.HTTPError page.status), reqs2)
    else
      let items2 := items ++ page.Items
      let next := currentPageIndex + 1
      if decide (next ≥ page.TotalPageCount) then (.ok items2, reqs2)
      else GetMyWishListAux world fuel next items2 reqs2

/-- Embeds `Kobo.GetMyWishList`: the loop started at page index 0 with nothing
accumulated. -/
def GetMyWishList (world : Nat → WishPage) (fuel : Nat) :
    Except KError (List String) × List (Nat × Nat) :=
  GetMyWishListAux world fuel 0 [] []

/-- One scripted reply of the `library_sync` endpoint: HTTP status, the
batch of books in the body, and the `x-kobo-sync` / `x-kobo-synctoken`
response headers. -/
structure SyncPage where
  status : Nat := 200
  books : List String := []
  syncHeader : Option String := none
  nextTokenHeader : Option String := none
deriving Repr, DecidableEq

/-- A request issued by the book-list loop, as far as the claims observe
it: the `x-kobo-synctoken` header it carried, if any. -/
structure SyncRequest where
  tokenHeader : Option String
deriving Repr, DecidableEq

/-- The request headers built by `Kobo.__GetMyBookListPage`: the sync
token is attached exactly when it is non-empty. -/
def mkSyncRequest (syncToken : String) : SyncRequest :=
  { tokenHeader := if syncToken.length > 0 then some syncToken else none }

/-- The sync token `Kobo.__GetMyBookListPage` extracts from a response:
the `x-kobo-synctoken` header (defaulting to the empty string) when
`x-kobo-sync` equals `continue`, and the empty string otherwise. -/
def nextSyncToken (page : SyncPage) : String :=
  if page.syncHeader = some "continue" then page.nextTokenHeader.getD "" else ""

/-- Embeds `Kobo.__GetMyBookListPage`: issue the request with the token header
when the token is non-empty, fail on a non-2xx status, and return the
batch together with the next sync token. -/
def GetMyBookListPage (syncToken : String) (page : SyncPage) :
    SyncRequest × Except KError (List String × String) :=
  let req := mkSyncRequest syncToken
  if !(is2xx page.status) then (req, .error (.HTTPError page.status))
  else (req, .ok (page.books, nextSyncToken page))

/-- The `while` loop of `Kobo.GetMyBookList`: fetch a page, accumulate
its batch, and stop once the extracted sync token is empty.  The script
supplies one `SyncPage` per request; running out of script is the
modelling artifact `ModelDiverge`. -/
def GetMyBookListAux :
    String → List SyncPage → List String → List SyncRequest →
      Except KError (List String) × List SyncRequest
  | _, [], _, reqs => (.error .ModelDiverge, reqs)
  | syncToken, page :: rest, acc, reqs =>
    let step := GetMyBookListPage syncToken page
    let reqs2 := reqs ++ [step.1]
    match step.2 with
    | .error e => (.error e, reqs2)
    | .ok (books, newToken) =>
      let acc2 := acc ++ books
      if newToken.length = 0 then (.ok acc2, reqs2)
      else GetMyBookListAux newToken rest acc2 reqs2

/-- Embeds `Kobo.GetMyBookList`: the local authentication check comes first and
raises `NotAuthenticatedException` before any request is issued; then
the loop runs with an initially empty sync token. -/
def GetMyBookList (u : UserState) (script : List SyncPage) :
    Except KError (List String) × List SyncRequest :=
  if !(AreAuthenticationSettingsSet u) then
    (.error (.notAuthenticated ("User " ++ u.Email ++ " is not authenticated")), [])
  else GetMyBookListAux "" script [] []

/-- A response script in which every page except the last signals
continuation (its extracted sync token is non-empty) and the last one
does not. -/
def wellFormedScript : List SyncPage → Bool
  | [] => false
  | [p] => decide (nextSyncToken p = "")
  | p :: rest => decide (nextSyncToken p ≠ "") && wellFormedScript rest

/-- Everything observable about one run of `Kobo.AuthenticateDevice`:
the `DeviceId` and optional `UserKey` fields of the POST body, the
raised error or returned state, the in-memory credential state
afterwards, and whether settings were saved. -/
structure AuthDeviceOutcome where
  sentDeviceId : String
  sentUserKey : Option String
  result : Except KError UserState
  finalUser : UserState
  saved : Bool
deriving Repr, DecidableEq

/-- Embeds `Kobo.AuthenticateDevice`: with an empty device id, assign a fresh
one (`freshId` stands for the generated UUID) and clear both tokens
before the request; post the device id (plus the user key when
non-empty); check the HTTP status and the token type; store both tokens;
re-validate authentication; store the returned user key when one was
sent; save the settings only at the very end.  `resp` scripts the reply
of the device-auth endpoint. -/
def AuthenticateDevice (u : UserState) (userKey : String) (freshId : String)
    (resp : AuthResponse) : AuthDeviceOutcome :=
  let u1 : UserState :=
    if u.DeviceId.length = 0 then
      { u with DeviceId := freshId, AccessToken := "", RefreshToken := "" }
    else u
  let sentKey := if userKey.length > 0 then some userKey else none
  if !(is2xx resp.status) then
    { sentDeviceId := u1.DeviceId, sentUserKey := sentKey,
      result := .error (.HTTPError resp.status), finalUser := u1, saved := false }
  else if resp.TokenType ≠ "Bearer" then
    { sentDeviceId := u1.DeviceId, sentUserKey := sentKey,
      result := .error (.KoboError ("Device authentication returned with an unsupported token type: \x27"
        ++ resp.TokenType ++ "\x27")),
      finalUser := u1, saved := false }
  else
    let u2 : UserState :=
      { u1 with AccessToken := resp.AccessToken, RefreshToken := resp.RefreshToken }
    if !(AreAuthenticationSettingsSet u2) then
      { sentDeviceId := u2.DeviceId, sentUserKey := sentKey,
        result := .error (.KoboError "Authentication settings are not set after device authentication."),
        finalUser := u2, saved := false }
    else
      let u3 : UserState :=
        if userKey.length > 0 then { u2 with UserKey := resp.UserKey } else u2
      { sentDeviceId := u3.DeviceId, sentUserKey := sentKey,
        result := .ok u3, finalUser := u3, saved := true }

/-- The filesystem as the download pipeline sees it: the set of paths at
which a file currently exists, as a list. -/
abbrev Fs : Type := List String

/-- Models `os.path.isfile`. -/
def Fs.isfile (fs : Fs) (p : String) : Bool :=
  fs.any (fun q => q == p)

/-- Models `os.remove`. -/
def Fs.remove (fs : Fs) (p : String) : Fs :=
  fs.filter (fun q => !(q == p))

/-- Opening a path for writing: a file now exists there. -/
def Fs.create (fs : Fs) (p : String) : Fs :=
  p :: fs

/-- Models `os.rename src dst`. -/
def Fs.rename (fs : Fs) (src dst : String) : Fs :=
  (fs.remove src).create dst

/-- How the scripted world resolves `Kobo.__DownloadToFile`: an HTTP
error before the output file is opened, a mid-stream failure that leaves
a partial file behind, or success. -/
inductive DlScript where
  | httpError (status : Nat)
  | midFail (e : KError)
  | success
deriving Repr, DecidableEq

/-- Scripted world for one `Kobo.Download` call: the content-access
reply (or the error fetching it raised), the fate of the streaming
download, and the fate of the external DRM remover — on failure,
`drmPartialOut` says whether it left a partial output file behind. -/
structure DownloadWorld where
  access : Except KError ContentAccessResponse
  dl : DlScript := .success
  drmOk : Bool := true
  drmErr : KError := .KoboError "drm"
  drmPartialOut : Bool := false
deriving Repr, DecidableEq

/-- The body of the `try` block in `Kobo.Download`: stream to the
temporary path, then either run the DRM remover into `outputPath` and
delete the temporary file, or rename the temporary file to
`outputPath`. -/
def downloadTryBody (w : DownloadWorld) (hasDrm : Bool) (tmp outputPath : String) (fs : Fs) :
    Except KError Unit × Fs :=
  match w.dl with
  | .httpError s => (.error (.HTTPError s), fs)
  | .midFail e => (.error e, fs.create tmp)
  | .success =>
    let fs1 := fs.create tmp
    if hasDrm then
      if w.drmOk then (.ok (), (fs1.create outputPath).remove tmp)
      else (.error w.drmErr, if w.drmPartialOut then fs1.create outputPath else fs1)
    else (.ok (), fs1.rename tmp outputPath)

/-- The `except` clause of `Kobo.Download`: remove the temporary path
and the output path, each if present, then re-raise. -/
def downloadCleanup (tmp outputPath : String) (fs : Fs) : Fs :=
  let fs1 := if fs.isfile tmp then fs.remove tmp else fs
  if fs1.isfile outputPath then fs1.remove outputPath else fs1

/-- Embeds `Kobo.Download`: fetch the content access descriptor, extract the
content keys, select the download info, then run the `try` block on
`outputPath ++ ".downloading"`; any error raised inside the `try` block
triggers the cleanup before being re-raised, while errors raised before
it propagate directly. -/
def Download (productId outputPath : String) (w : DownloadWorld) (fs : Fs) :
    Except KError String × Fs :=
  match w.access with
  | .error e => (.error e, fs)
  | .ok resp =>
    let _contentKeys := GetContentKeys resp
    match GetDownloadInfo productId resp with
    | .error e => (.error e, fs)
    | .ok (_, hasDrm) =>
      let temporaryOutputPath := outputPath ++ ".downloading"
      match downloadTryBody w hasDrm temporaryOutputPath outputPath fs with
      | (.ok _, fs1) => (.ok outputPath, fs1)
      | (.error e, fs1) => (.error e, downloadCleanup temporaryOutputPath outputPath fs1)

/-!  Helper lemmas. -/

theorem Fs.isfile_remove (fs : Fs) (p q : String) :
    (fs.remove q).isfile p = (fs.isfile p && !(p == q)) := by
  rw [Bool.eq_iff_iff]
  simp [Fs.remove, Fs.isfile, List.mem_filter]

theorem Fs.isfile_create (fs : Fs) (p q : String) :
    (fs.create q).isfile p = ((q == p) || fs.isfile p) := by
  simp [Fs.create, Fs.isfile]

theorem downloadCleanup_isfile (tmp out : String) (fs : Fs) :
    (downloadCleanup tmp out fs).isfile tmp = false
      ∧ (downloadCleanup tmp out fs).isfile out = false := by
  unfold downloadCleanup
  by_cases h1 : fs.isfile tmp = true
  · by_cases h2 : ((fs.remove tmp).isfile out) = true
    · simp [h1, h2, Fs.isfile_remove]
    · have h2' : (fs.remove tmp).isfile out = false := by simpa using h2
      simp [h1, h2', Fs.isfile_remove]
  · have h1' : fs.isfile tmp = false := by simpa using h1
    by_cases h2 : (fs.isfile out) = true
    · simp [h1', h2, Fs.isfile_remove]
    · have h2' : fs.isfile out = false := by simpa using h2
      simp [h1', h2']

theorem scanContentUrls_eq_find (l : List ContentUrl) :
    scanContentUrls l = (l.find? qualifies).map
      (fun cu => (cu.DownloadUrl, decide (cu.DRMType = "KDRM"))) := by
  induction l with
  | nil => rfl
  | cons cu rest ih =>
    cases hq : qualifies cu with
    | true => simp [scanContentUrls, hq, List.find?_cons_of_pos _ hq]
    | false => simp [scanContentUrls, hq, List.find?_cons_of_neg, ih]

theorem foldl_append_eq (f : ContentUrl → String) :
    ∀ (l : List ContentUrl) (s : String),
      l.foldl (fun acc cu => acc ++ f cu) s
        = s ++ (l.map f).foldr (fun a b => a ++ b) "" := by
  intro l
  induction l with
  | nil => intro s; simp [String.append_empty]
  | cons cu rest ih =>
    intro s
    simp only [List.foldl_cons, List.foldr_cons, List.map_cons, ih, String.append_assoc]

/-- C8: the refresh POST carries an Authorization header built from the
pre-refresh access token and the pre-refresh refresh token; a token type
other than `Bearer` is a protocol error; on the happy path both tokens
are overwritten with the response values, the state is re-validated as
authenticated (protocol error otherwise), and the settings are saved
exactly when every check succeeded. -/
theorem refreshAuthentication_spec (u : UserState) (resp : AuthResponse) :
    (RefreshAuthentication u resp).sentAuthHeader = "Bearer " ++ u.AccessToken
    ∧ (RefreshAuthentication u resp).sentRefreshToken = u.RefreshToken
    ∧ ((RefreshAuthentication u resp).saved = true ↔
        (RefreshAuthentication u resp).result = .ok (RefreshAuthentication u resp).finalUser)
    ∧ (is2xx resp.status = false →
        (RefreshAuthentication u resp).result = .error (.HTTPError resp.status)
        ∧ (RefreshAuthentication u resp).finalUser = u)
    ∧ (is2xx resp.status = true → resp.TokenType ≠ "Bearer" →
        (RefreshAuthentication u resp).result = .error (.KoboError
          ("Authentication refresh returned with an unsupported token type: \x27"
            ++ resp.TokenType ++ "\x27"))
        ∧ (RefreshAuthentication u resp).finalUser = u)
    ∧ (is2xx resp.status = true → resp.TokenType = "Bearer" →
        (RefreshAuthentication u resp).finalUser.AccessToken = resp.AccessToken
        ∧ (RefreshAuthentication u resp).finalUser.RefreshToken = resp.RefreshToken
        ∧ (AreAuthenticationSettingsSet (RefreshAuthentication u resp).finalUser = false →
            (RefreshAuthentication u resp).result = .error
              (.KoboError "Authentication settings are not set after authentication refresh."))
        ∧ (AreAuthenticationSettingsSet (RefreshAuthentication u resp).finalUser = true →
            (RefreshAuthentication u resp).result = .ok (RefreshAuthentication u resp).finalUser)) := by
  unfold RefreshAuthentication GetHeaderWithAccessToken
  cases h1 : is2xx resp.status with
  | false => simp [h1]
  | true =>
    by_cases h2 : resp.TokenType = "Bearer"
    · cases h3 : AreAuthenticationSettingsSet
        { u with AccessToken := resp.AccessToken, RefreshToken := resp.RefreshToken } with
      | false => simp [h1, h2, h3]
      | true => simp [h1, h2, h3]
    · simp [h1, h2]

/-- C8 witness: a concrete successful refresh, checked through
`refreshAuthentication_spec`. -/
theorem refreshAuthentication_spec_witness :
    (RefreshAuthentication
        { DeviceId := "d", UserId := "u", UserKey := "k", Email := "e",
          AccessToken := "oldAccess", RefreshToken := "oldRefresh" }
        { status := 200, TokenType := "Bearer",
          AccessToken := "newAccess", RefreshToken := "newRefresh" }).sentAuthHeader
      = "Bearer oldAccess"
    ∧ (RefreshAuthentication
        { DeviceId := "d", UserId := "u", UserKey := "k", Email := "e",
          AccessToken := "oldAccess", RefreshToken := "oldRefresh" }
        { status := 200, TokenType := "Bearer",
          AccessToken := "newAccess", RefreshToken := "newRefresh" }).result
      = .ok (RefreshAuthentication
        { DeviceId := "d", UserId := "u", UserKey := "k", Email := "e",
          AccessToken := "oldAccess", RefreshToken := "oldRefresh" }
        { status := 200, TokenType := "Bearer",
          AccessToken := "newAccess", RefreshToken := "newRefresh" }).finalUser := by
  have h := refreshAuthentication_spec
    { DeviceId := "d", UserId := "u", UserKey := "k", Email := "e",
      AccessToken := "oldAccess", RefreshToken := "oldRefresh" }
    { status := 200, TokenType := "Bearer",
      AccessToken := "newAccess", RefreshToken := "newRefresh" }
  refine ⟨h.1, ?_⟩
  exact (h.2.2.2.2.2 (by decide) rfl).2.2.2 (by decide)

theorem refreshAuthentication_ok_inv (u : UserState) (resp : AuthResponse) (u2 : UserState)
    (h : (RefreshAuthentication u resp).result = .ok u2) :
    u2 = { u with AccessToken := resp.AccessToken, RefreshToken := resp.RefreshToken } := by
  unfold RefreshAuthentication GetHeaderWithAccessToken at h
  by_cases h1 : is2xx resp.status
  · by_cases h2 : resp.TokenType = "Bearer"
    · by_cases h3 : AreAuthenticationSettingsSet
        { u with AccessToken := resp.AccessToken, RefreshToken := resp.RefreshToken }
      · simp [h1, h2, h3] at h
        exact h.symm
      · simp [h1, h2, h3] at h
    · simp [h1, h2] at h
  · simp [h1] at h

/-- C1: a first response with status 401 is drained and released, the
refresh runs exactly once, and the original request is resent exactly
once with an Authorization header rebuilt from the post-refresh access
token and with the hook deregistered; the retried response (its history
holding the failed 401) is returned when 2xx, while a non-2xx retried
response — including a second 401 — propagates as an HTTP error with no
second refresh; a failing refresh propagates its own error with no
resend; a non-401 non-2xx first response propagates as an HTTP error
with no refresh at all. -/
theorem sendWithReauthHook_spec (u : UserState) (w : HookWorld) :
    (∀ u2, (RefreshAuthentication u w.refreshResp).result = .ok u2 →
      (sendWithReauthHook u 401 w).drainedFirst = true
      ∧ (sendWithReauthHook u 401 w).refreshCount = 1
      ∧ (sendWithReauthHook u 401 w).retriedRequest =
          some { authHeader := "Bearer " ++ u2.AccessToken, hasReauthHook := false }
      ∧ u2.AccessToken = w.refreshResp.AccessToken
      ∧ (is2xx w.retryStatus = true →
          (sendWithReauthHook u 401 w).result = .ok
            { status := w.retryStatus,
              request := { authHeader := "Bearer " ++ u2.AccessToken, hasReauthHook := false },
              history := [401] })
      ∧ (is2xx w.retryStatus = false →
          (sendWithReauthHook u 401 w).result = .error (.HTTPError w.retryStatus)))
    ∧ (∀ e, (RefreshAuthentication u w.refreshResp).result = .error e →
        (sendWithReauthHook u 401 w).result = .error e
        ∧ (sendWithReauthHook u 401 w).refreshCount = 1
        ∧ (sendWithReauthHook u 401 w).drainedFirst = true
        ∧ (sendWithReauthHook u 401 w).retriedRequest = none)
    ∧ (∀ s, s ≠ 401 → is2xx s = false →
        (sendWithReauthHook u s w).result = .error (.HTTPError s)
        ∧ (sendWithReauthHook u s w).refreshCount = 0
        ∧ (sendWithReauthHook u s w).retriedRequest = none)
    ∧ (∀ s, s ≠ 401 → is2xx s = true →
        (sendWithReauthHook u s w).result = .ok
          { status := s,
            request := { authHeader := "Bearer " ++ u.AccessToken, hasReauthHook := true },
            history := [] }
        ∧ (sendWithReauthHook u s w).refreshCount = 0) := by
  refine ⟨?_, ?_, ?_, ?_⟩
  · intro u2 hok
    have hacc : u2.AccessToken = w.refreshResp.AccessToken := by
      rw [refreshAuthentication_ok_inv u w.refreshResp u2 hok]
    unfold sendWithReauthHook GetHeaderWithAccessToken
    cases h2 : is2xx w.retryStatus <;>
      simp [hok, h2, hacc]
  · intro e herr
    unfold sendWithReauthHook GetHeaderWithAccessToken
    simp [herr]
  · intro s hs h2
    unfold sendWithReauthHook GetHeaderWithAccessToken
    simp [hs, h2]
  · intro s hs h2
    unfold sendWithReauthHook GetHeaderWithAccessToken
    simp [hs, h2]

/-- C1 witness: a concrete 401 with a successful refresh and a 2xx
retried request, and a concrete 403 propagating with no refresh, both
checked through `sendWithReauthHook_spec`. -/
theorem sendWithReauthHook_spec_witness :
    (sendWithReauthHook { AccessToken := "old", RefreshToken := "r" } 401
        { refreshResp := { AccessToken := "new", RefreshToken := "r2" },
          retryStatus := 200 }).result =
      .ok { status := 200,
            request := { authHeader := "Bearer new", hasReauthHook := false },
            history := [401] }
    ∧ (sendWithReauthHook { AccessToken := "old", RefreshToken := "r" } 401
        { refreshResp := { AccessToken := "new", RefreshToken := "r2" },
          retryStatus := 200 }).refreshCount = 1
    ∧ (sendWithReauthHook { AccessToken := "old", RefreshToken := "r" } 403
        { refreshResp := { AccessToken := "new", RefreshToken := "r2" },
          retryStatus := 200 }).result = .error (.HTTPError 403)
    ∧ (sendWithReauthHook { AccessToken := "old", RefreshToken := "r" } 403
        { refreshResp := { AccessToken := "new", RefreshToken := "r2" },
          retryStatus := 200 }).refreshCount = 0 := by
  have h := sendWithReauthHook_spec { AccessToken := "old", RefreshToken := "r" }
    { refreshResp := { AccessToken := "new", RefreshToken := "r2" }, retryStatus := 200 }
  have hok := h.1
    { DeviceId := "", UserId := "", UserKey := "", Email := "",
      AccessToken := "new", RefreshToken := "r2" } (by decide)
  have h403 := h.2.2.1 403 (by decide) (by decide)
  exact ⟨hok.2.2.2.2.1 (by decide), hok.2.1, h403.1, h403.2.1⟩

/-- C2: when the `ContentUrls` list is non-empty and contains a
qualifying tuple (DRM type `KDRM` or `SignedNoDrm`, format `EPUB3`,
`KEPUB` or `EPUB3FL`), encoding selection returns the first such
tuple, giving its `DownloadUrl` in server order, with `hasDrm` true
exactly when the DRM type of that tuple is `KDRM`. -/
theorem getDownloadInfo_first_match (pid : String) (l : List ContentUrl) (cu : ContentUrl)
    (h : l.find? qualifies = some cu) :
    GetDownloadInfo pid { ContentUrls := some l } =
      .ok (cu.DownloadUrl, decide (cu.DRMType = "KDRM")) := by
  have hne : l ≠ [] := by rintro rfl; simp at h
  have hlen : ¬ l.length = 0 := by simpa [List.length_eq_zero] using hne
  unfold GetDownloadInfo
  simp [hlen, scanContentUrls_eq_find, h]

/-- C2 witness: the example list of the spec — an unsupported PDF tuple, a
signed-no-DRM EPUB3 tuple, a KDRM KEPUB tuple — selects the second
tuple with `hasDrm = false`, checked through
`getDownloadInfo_first_match`. -/
theorem getDownloadInfo_first_match_witness :
    GetDownloadInfo "prod-1"
      { ContentUrls := some
          [{ DRMType := "Other", UrlFormat := "PDF", DownloadUrl := "url1" },
           { DRMType := "SignedNoDrm", UrlFormat := "EPUB3", DownloadUrl := "url2" },
           { DRMType := "KDRM", UrlFormat := "KEPUB", DownloadUrl := "url3" }] } =
      .ok ("url2", false) := by
  have h := getDownloadInfo_first_match "prod-1"
    [{ DRMType := "Other", UrlFormat := "PDF", DownloadUrl := "url1" },
     { DRMType := "SignedNoDrm", UrlFormat := "EPUB3", DownloadUrl := "url2" },
     { DRMType := "KDRM", UrlFormat := "KEPUB", DownloadUrl := "url3" }]
    { DRMType := "SignedNoDrm", UrlFormat := "EPUB3", DownloadUrl := "url2" }
    (by decide)
  simpa using h

/-- C6: with an empty `ContentUrls` list, selection fails with the
`KoboException` naming the product id and pointing at unarchiving; with
a non-empty list holding no qualifying tuple, it fails with the
`KoboException` whose message appends one `DRMType`/`UrlFormat` line per
tuple of the list, in order. -/
theorem getDownloadInfo_error_messages (pid : String) (l : List ContentUrl)
    (hne : l ≠ []) (hnone : l.find? qualifies = none) :
    GetDownloadInfo pid { ContentUrls := some [] } =
      .error (.KoboError ("Download URL list is empty for product \x27" ++ pid
        ++ "\x27. If this is an archived book then it must be unarchived first on the Kobo website (https://www.kobo.com/help/en-US/article/1799/restoring-deleted-books-or-magazines)."))
    ∧ GetDownloadInfo pid { ContentUrls := some l } =
      .error (.KoboError (availableFormatsMessage pid l))
    ∧ availableFormatsMessage pid l =
      ("Download URL for supported formats can\x27t be found for product \x27" ++ pid
        ++ "\x27.\n" ++ "Available formats:")
      ++ (l.map (fun cu => "\nDRMType: \x27" ++ cu.DRMType ++ "\x27, UrlFormat: \x27"
            ++ cu.UrlFormat ++ "\x27")).foldr (fun a b => a ++ b) "" := by
  have hlen : ¬ l.length = 0 := by simpa [List.length_eq_zero] using hne
  refine ⟨by simp [GetDownloadInfo], ?_, ?_⟩
  · unfold GetDownloadInfo
    simp [hlen, scanContentUrls_eq_find, hnone]
  · unfold availableFormatsMessage
    exact foldl_append_eq _ l _

/-- C6 witness: concrete empty-list and no-match errors, the latter
enumerating both offered formats, checked through
`getDownloadInfo_error_messages`. -/
theorem getDownloadInfo_error_messages_witness :
    GetDownloadInfo "prod-2" { ContentUrls := some [] } =
      .error (.KoboError ("Download URL list is empty for product \x27prod-2\x27. If this is an archived book then it must be unarchived first on the Kobo website (https://www.kobo.com/help/en-US/article/1799/restoring-deleted-books-or-magazines)."))
    ∧ GetDownloadInfo "prod-2"
        { ContentUrls := some
            [{ DRMType := "Other", UrlFormat := "PDF", DownloadUrl := "u1" },
             { DRMType := "KDRM", UrlFormat := "PDF", DownloadUrl := "u2" }] } =
      .error (.KoboError
        "Download URL for supported formats can\x27t be found for product \x27prod-2\x27.\nAvailable formats:\nDRMType: \x27Other\x27, UrlFormat: \x27PDF\x27\nDRMType: \x27KDRM\x27, UrlFormat: \x27PDF\x27") := by
  have h := getDownloadInfo_error_messages "prod-2"
    [{ DRMType := "Other", UrlFormat := "PDF", DownloadUrl := "u1" },
     { DRMType := "KDRM", UrlFormat := "PDF", DownloadUrl := "u2" }]
    (by decide) (by decide)
  refine ⟨by simpa using h.1, ?_⟩
  have h2 := h.2.1
  rw [h.2.2] at h2
  simpa using h2

theorem getMyWishListAux_const (world : Nat → WishPage) (N : Nat)
    (hN : ∀ i, (world i).TotalPageCount = N)
    (hok : ∀ i, is2xx (world i).status = true) :
    ∀ (fuel j : Nat) (items : List String) (reqs : List (Nat × Nat)),
      max (N - j) 1 ≤ fuel →
      GetMyWishListAux world fuel j items reqs =
        (.ok (items ++ (List.range' j (max (N - j) 1)).flatMap fun i => (world i).Items),
         reqs ++ (List.range' j (max (N - j) 1)).map fun i => (i, 100)) := by
  intro fuel
  induction fuel with
  | zero => intro j items reqs hf; omega
  | succ fuel ih =>
    intro j items reqs hf
    by_cases hstop : N ≤ j + 1
    · have hmax : max (N - j) 1 = 1 := by omega
      rw [hmax]
      simp [GetMyWishListAux, hok j, hN j, hstop, List.range'_one]
    · have hmax : max (N - j) 1 = N - j := by omega
      have hf2 : max (N - (j + 1)) 1 ≤ fuel := by omega
      have hrec := ih (j + 1) (items ++ (world j).Items) (reqs ++ [(j, 100)]) hf2
      have hmax2 : max (N - (j + 1)) 1 = N - (j + 1) := by omega
      have hsplit : List.range' j (N - j) = j :: List.range' (j + 1) (N - (j + 1)) := by
        have h1 : N - j = (N - (j + 1)) + 1 := by omega
        rw [h1, List.range'_succ]
      simp only [GetMyWishListAux, hok j, hN j, Bool.not_true, Bool.false_eq_true,
        if_false, hmax]
      rw [if_neg (by simpa using hstop)]
      rw [hrec, hmax2, hsplit]
      simp [List.append_assoc]

/-- C3: against a wishlist endpoint consistently reporting
`TotalPageCount = N`, the loop issues exactly `max N 1` requests (so
one probe request when `N = 0`), the request for position `i` carrying
`PageIndex = i` and `PageSize = 100`, and returns the concatenation of
the `Items` of pages `0 .. N-1` — empty when `N = 0`, since a server
with zero pages answers the probe with no items. -/
theorem getMyWishList_pagination (world : Nat → WishPage) (N fuel : Nat)
    (hN : ∀ i, (world i).TotalPageCount = N)
    (hok : ∀ i, is2xx (world i).status = true)
    (hfuel : max N 1 ≤ fuel)
    (h0 : N = 0 → (world 0).Items = []) :
    GetMyWishList world fuel =
      (.ok ((List.range N).flatMap fun i => (world i).Items),
       (List.range (max N 1)).map fun i => (i, 100)) := by
  have h := getMyWishListAux_const world N hN hok fuel 0 [] [] (by simpa using hfuel)
  unfold GetMyWishList
  rw [h]
  cases N with
  | zero => simp [h0 rfl, List.range_eq_range', List.range'_one]
  | succ n => simp [List.range_eq_range']

/-- C3 witness: a two-page wishlist is fetched with exactly the requests
`(0, 100)` and `(1, 100)` and returns the items of both pages in order,
checked through `getMyWishList_pagination`. -/
theorem getMyWishList_pagination_witness :
    GetMyWishList
      (fun i => { status := 200,
                  Items := if i = 0 then ["a"] else if i = 1 then ["b"] else [],
                  TotalPageCount := 2 }) 3 =
      (.ok ["a", "b"], [(0, 100), (1, 100)]) := by
  have h := getMyWishList_pagination
    (fun i => { status := 200,
                Items := if i = 0 then ["a"] else if i = 1 then ["b"] else [],
                TotalPageCount := 2 })
    2 3 (fun i => rfl) (fun i => rfl) (by decide) (by simp)
  simpa using h

theorem string_length_eq_zero (s : String) : s.length = 0 ↔ s = "" := by
  constructor
  · intro h
    cases s with
    | mk data =>
      cases data with
      | nil => rfl
      | cons c cs => simp [String.length, List.length] at h
  · intro h
    subst h
    rfl

theorem getMyBookListAux_cons (tok : String) (page : SyncPage) (rest : List SyncPage)
    (acc : List String) (reqs : List SyncRequest) :
    GetMyBookListAux tok (page :: rest) acc reqs =
      (let step := GetMyBookListPage tok page
       let reqs2 := reqs ++ [step.1]
       match step.2 with
       | .error e => (.error e, reqs2)
       | .ok (books, newToken) =>
         let acc2 := acc ++ books
         if newToken.length = 0 then (.ok acc2, reqs2)
         else GetMyBookListAux newToken rest acc2 reqs2) := rfl

theorem getMyBookListAux_spec :
    ∀ (script : List SyncPage) (tok : String) (acc : List String) (reqs : List SyncRequest),
      wellFormedScript script = true →
      (∀ p ∈ script, is2xx p.status = true) →
      GetMyBookListAux tok script acc reqs =
        (.ok (acc ++ script.flatMap fun p => p.books),
         reqs ++ mkSyncRequest tok ::
           (script.dropLast.map fun p => mkSyncRequest (nextSyncToken p))) := by
  intro script
  induction script with
  | nil => intro tok acc reqs hwf hok; simp [wellFormedScript] at hwf
  | cons p rest ih =>
    intro tok acc reqs hwf hok
    have hokp : is2xx p.status = true := hok p (by simp)
    cases rest with
    | nil =>
      have hlast : nextSyncToken p = "" := by
        simpa [wellFormedScript] using hwf
      simp [GetMyBookListAux, GetMyBookListPage, hokp, hlast]
    | cons q rest2 =>
      have hcont : nextSyncToken p ≠ "" := by
        have := hwf
        simp [wellFormedScript] at this
        exact this.1
      have hwf2 : wellFormedScript (q :: rest2) = true := by
        have := hwf
        simp [wellFormedScript] at this
        exact this.2
      have hlen : ¬ (nextSyncToken p).length = 0 := by
        simpa [string_length_eq_zero] using hcont
      have hrec := ih (nextSyncToken p) (acc ++ p.books) (reqs ++ [mkSyncRequest tok])
        hwf2 (fun r hr => hok r (by simp [hr]))
      rw [getMyBookListAux_cons]
      simp only [GetMyBookListPage, hokp, Bool.not_true, Bool.false_eq_true, if_false]
      rw [if_neg hlen, hrec]
      simp [List.append_assoc, List.dropLast_cons_of_ne_nil]

/-- C5: with the credential authenticated and a response script whose
every page but the last signals continuation, the book-list loop issues
exactly one request per page — the first with no `x-kobo-synctoken`
header and each later one carrying the token extracted from the
previous page — and returns the concatenation of all the batches in
order, stopping at the first non-continuing response. -/
theorem getMyBookList_pagination (u : UserState) (script : List SyncPage)
    (hauth : AreAuthenticationSettingsSet u = true)
    (hwf : wellFormedScript script = true)
    (hok : ∀ p ∈ script, is2xx p.status = true) :
    GetMyBookList u script =
      (.ok (script.flatMap fun p => p.books),
       mkSyncRequest "" :: (script.dropLast.map fun p => mkSyncRequest (nextSyncToken p)))
    ∧ mkSyncRequest "" = { tokenHeader := none }
    ∧ (∀ t, t ≠ "" → mkSyncRequest t = { tokenHeader := some t })
    ∧ (mkSyncRequest "" ::
        (script.dropLast.map fun p => mkSyncRequest (nextSyncToken p))).length
      = script.length := by
  have hne : script ≠ [] := by
    rintro rfl
    simp [wellFormedScript] at hwf
  refine ⟨?_, rfl, ?_, ?_⟩
  · have h := getMyBookListAux_spec script "" [] [] hwf hok
    simp [GetMyBookList, hauth, h]
  · intro t ht
    have : ¬ t.length = 0 := by simpa [string_length_eq_zero] using ht
    simp [mkSyncRequest]
    omega
  · have : script.dropLast.length = script.length - 1 := by simp
    have hlen : 0 < script.length := List.length_pos.mpr hne
    simp [this]
    omega

/-- C5 witness: a two-page sync script — first page continuing with
token `tok1`, second page final — yields both batches concatenated,
with the first request carrying no token header and the second carrying
`tok1`, checked through `getMyBookList_pagination`. -/
theorem getMyBookList_pagination_witness :
    GetMyBookList { Email := "e", AccessToken := "a", RefreshToken := "r" }
      [{ status := 200, books := ["b1", "b2"], syncHeader := some "continue",
         nextTokenHeader := some "tok1" },
       { status := 200, books := ["b3"], syncHeader := none, nextTokenHeader := none }] =
      (.ok ["b1", "b2", "b3"], [{ tokenHeader := none }, { tokenHeader := some "tok1" }]) := by
  have h := getMyBookList_pagination { Email := "e", AccessToken := "a", RefreshToken := "r" }
    [{ status := 200, books := ["b1", "b2"], syncHeader := some "continue",
       nextTokenHeader := some "tok1" },
     { status := 200, books := ["b3"], syncHeader := none, nextTokenHeader := none }]
    (by decide) (by decide) (by decide)
  have h1 := h.1
  simp [mkSyncRequest, nextSyncToken] at h1
  simpa using h1

/-- C7: with the authentication settings not set, `GetMyBookList` raises
`NotAuthenticatedException` at once and issues no request at all,
whatever the scripted transport would have answered. -/
theorem getMyBookList_not_authenticated (u : UserState) (script : List SyncPage)
    (h : AreAuthenticationSettingsSet u = false) :
    GetMyBookList u script =
      (.error (.notAuthenticated ("User " ++ u.Email ++ " is not authenticated")), []) := by
  simp [GetMyBookList, h]

/-- C7 witness: a fresh user with empty tokens, against a non-trivial
script that is never consulted. -/
theorem getMyBookList_not_authenticated_witness :
    GetMyBookList { Email := "who@example.com" } [{ books := ["b1"] }] =
      (.error (.notAuthenticated "User who@example.com is not authenticated"), []) := by
  have h := getMyBookList_not_authenticated { Email := "who@example.com" }
    [{ books := ["b1"] }] (by decide)
  simpa using h

/-- C10: with an empty device id, `AuthenticateDevice` sends a request
whose body already carries the fresh device id, with both tokens cleared
beforehand; any failure (transport, token type, validation) leaves those
in-memory mutations in place with nothing saved; the settings are saved
exactly when the call succeeds, and the same holds for the refresh
flow. -/
theorem authenticateDevice_mutations_and_persistence (u : UserState)
    (userKey freshId : String) (resp : AuthResponse) (h : u.DeviceId = "") :
    (AuthenticateDevice u userKey freshId resp).sentDeviceId = freshId
    ∧ (is2xx resp.status = false →
        (AuthenticateDevice u userKey freshId resp).result = .error (.HTTPError resp.status)
        ∧ (AuthenticateDevice u userKey freshId resp).finalUser =
            { u with DeviceId := freshId, AccessToken := "", RefreshToken := "" }
        ∧ (AuthenticateDevice u userKey freshId resp).saved = false)
    ∧ (is2xx resp.status = true → resp.TokenType ≠ "Bearer" →
        (AuthenticateDevice u userKey freshId resp).finalUser =
            { u with DeviceId := freshId, AccessToken := "", RefreshToken := "" }
        ∧ (AuthenticateDevice u userKey freshId resp).saved = false)
    ∧ ((AuthenticateDevice u userKey freshId resp).saved = true ↔
        (AuthenticateDevice u userKey freshId resp).result =
          .ok (AuthenticateDevice u userKey freshId resp).finalUser)
    ∧ ((RefreshAuthentication u resp).saved = true ↔
        (RefreshAuthentication u resp).result = .ok (RefreshAuthentication u resp).finalUser) := by
  have hrefresh := (refreshAuthentication_spec u resp).2.2.1
  unfold AuthenticateDevice
  cases h1 : is2xx resp.status with
  | false =>
    simp [h1, h]
    exact hrefresh
  | true =>
    by_cases h2 : resp.TokenType = "Bearer"
    · cases h3 : AreAuthenticationSettingsSet
        { u with DeviceId := freshId, AccessToken := resp.AccessToken,
                 RefreshToken := resp.RefreshToken } with
      | false =>
        by_cases hk : userKey.length > 0
        · simp [h1, h2, h3, h, hk, hrefresh]
        · simp [h1, h2, h3, h, hk, hrefresh]
      | true =>
        by_cases hk : userKey.length > 0
        · simp [h1, h2, h3, h, hk, hrefresh]
        · simp [h1, h2, h3, h, hk, hrefresh]
    · simp [h1, h2, h, hrefresh]

/-- C10 witness: a concrete failed registration (wrong token type) after
which the fresh device id and cleared tokens persist in memory but
nothing is saved, checked through
`authenticateDevice_mutations_and_persistence`. -/
theorem authenticateDevice_mutations_and_persistence_witness :
    (AuthenticateDevice { Email := "e", AccessToken := "a", RefreshToken := "r" } "" "fresh-id"
        { status := 200, TokenType := "NotBearer" }).finalUser =
      { Email := "e", DeviceId := "fresh-id", AccessToken := "", RefreshToken := "" }
    ∧ (AuthenticateDevice { Email := "e", AccessToken := "a", RefreshToken := "r" } "" "fresh-id"
        { status := 200, TokenType := "NotBearer" }).saved = false := by
  have h := authenticateDevice_mutations_and_persistence
    { Email := "e", AccessToken := "a", RefreshToken := "r" } "" "fresh-id"
    { status := 200, TokenType := "NotBearer" } rfl
  exact h.2.2.1 (by decide) (by decide)



theorem Download_eval_access_error (pid out : String) (w : DownloadWorld) (fs : Fs)
    (ea : KError) (hacc : w.access = .error ea) :
    Download pid out w fs = (.error ea, fs) := by
  unfold Download
  rw [hacc]

theorem Download_eval_info_error (pid out : String) (w : DownloadWorld) (fs : Fs)
    (resp : ContentAccessResponse) (e2 : KError)
    (hacc : w.access = .ok resp) (hinfo : GetDownloadInfo pid resp = .error e2) :
    Download pid out w fs = (.error e2, fs) := by
  unfold Download
  rw [hacc]
  simp [hinfo]

theorem Download_eval_try (pid out : String) (w : DownloadWorld) (fs : Fs)
    (resp : ContentAccessResponse) (url : String) (hasDrm : Bool)
    (hacc : w.access = .ok resp) (hinfo : GetDownloadInfo pid resp = .ok (url, hasDrm)) :
    Download pid out w fs =
      (match downloadTryBody w hasDrm (out ++ ".downloading") out fs with
       | (.ok _, fs1) => (.ok out, fs1)
       | (.error e, fs1) => (.error e, downloadCleanup (out ++ ".downloading") out fs1)) := by
  unfold Download
  rw [hacc]
  simp [hinfo]

/-- C4 counterexample: with a file already present at `outputPath`, a
failure of the descriptor fetch — a step of the pipeline — returns that
error while `outputPath` still exists on disk, so the claim as stated
is false. -/
theorem download_cleanup_counterexample :
    (Download "p1" "book.epub" { access := .error (.HTTPError 500) } ["book.epub"]).1
      = .error (.HTTPError 500)
    ∧ Fs.isfile
        (Download "p1" "book.epub" { access := .error (.HTTPError 500) } ["book.epub"]).2
        "book.epub" = true := by
  decide

/-- C4 (amended): provided neither `outputPath` nor
`outputPath ++ ".downloading"` exists before the call, a `Download`
failing at any step leaves neither path on disk and returns the failing
own error of the failing step, unchanged — the descriptor-fetch error, the
encoding-selection error, the streaming HTTP error, the mid-stream
error, or the error of the DRM remover. -/
theorem download_all_or_nothing (pid out : String) (w : DownloadWorld) (fs : Fs)
    (h1 : fs.isfile out = false) (h2 : fs.isfile (out ++ ".downloading") = false) :
    ∀ e fs2, Download pid out w fs = (.error e, fs2) →
      fs2.isfile out = false ∧ fs2.isfile (out ++ ".downloading") = false
      ∧ (w.access = .error e
         ∨ (∃ resp, w.access = .ok resp ∧ GetDownloadInfo pid resp = .error e)
         ∨ (∃ s, w.dl = .httpError s ∧ e = .HTTPError s)
         ∨ w.dl = .midFail e
         ∨ (e = w.drmErr ∧ w.drmOk = false)) := by
  intro e fs2 hrun
  cases hacc : w.access with
  | error ea =>
    rw [Download_eval_access_error pid out w fs ea hacc] at hrun
    simp at hrun
    obtain ⟨hea, hfs⟩ := hrun
    subst hfs
    exact ⟨h1, h2, Or.inl (by rw [hea])⟩
  | ok resp =>
    cases hinfo : GetDownloadInfo pid resp with
    | error e2 =>
      rw [Download_eval_info_error pid out w fs resp e2 hacc hinfo] at hrun
      simp at hrun
      obtain ⟨hee, hfs⟩ := hrun
      subst hfs
      exact ⟨h1, h2, Or.inr (Or.inl ⟨resp, rfl, by rw [hinfo, hee]⟩)⟩
    | ok info =>
      obtain ⟨url, hasDrm⟩ := info
      rw [Download_eval_try pid out w fs resp url hasDrm hacc hinfo] at hrun
      cases hdl : w.dl with
      | httpError s =>
        simp [downloadTryBody, hdl] at hrun
        obtain ⟨hee, hfs⟩ := hrun
        refine ⟨?_, ?_, Or.inr (Or.inr (Or.inl ⟨s, rfl, hee.symm⟩))⟩
        · rw [← hfs]
          exact (downloadCleanup_isfile _ _ _).2
        · rw [← hfs]
          exact (downloadCleanup_isfile _ _ _).1
      | midFail e3 =>
        simp [downloadTryBody, hdl] at hrun
        obtain ⟨hee, hfs⟩ := hrun
        refine ⟨?_, ?_, Or.inr (Or.inr (Or.inr (Or.inl (by rw [hee]))))⟩
        · rw [← hfs]
          exact (downloadCleanup_isfile _ _ _).2
        · rw [← hfs]
          exact (downloadCleanup_isfile _ _ _).1
      | success =>
        cases hasDrm with
        | false => simp [downloadTryBody, hdl] at hrun
        | true =>
          cases hdrm : w.drmOk with
          | true => simp [downloadTryBody, hdl, hdrm] at hrun
          | false =>
            simp [downloadTryBody, hdl, hdrm] at hrun
            obtain ⟨hee, hfs⟩ := hrun
            refine ⟨?_, ?_, Or.inr (Or.inr (Or.inr (Or.inr ⟨hee.symm, rfl⟩)))⟩
            · rw [← hfs]
              exact (downloadCleanup_isfile _ _ _).2
            · rw [← hfs]
              exact (downloadCleanup_isfile _ _ _).1

/-- C4 witness: on a pristine filesystem, a download failing mid-stream
leaves neither the temporary nor the final path behind, checked through
`download_all_or_nothing`. -/
theorem download_all_or_nothing_witness :
    (Download "p1" "out.epub" { access := .ok { ContentUrls := some [{ DRMType := "SignedNoDrm", UrlFormat := "EPUB3", DownloadUrl := "u" }] }, dl := .midFail (.KoboError "net") } []).2.isfile "out.epub" = false
    ∧ (Download "p1" "out.epub" { access := .ok { ContentUrls := some [{ DRMType := "SignedNoDrm", UrlFormat := "EPUB3", DownloadUrl := "u" }] }, dl := .midFail (.KoboError "net") } []).2.isfile ("out.epub" ++ ".downloading") = false := by
  have h := download_all_or_nothing "p1" "out.epub"
    { access := .ok { ContentUrls := some [{ DRMType := "SignedNoDrm", UrlFormat := "EPUB3", DownloadUrl := "u" }] }, dl := .midFail (.KoboError "net") }
    [] (by decide) (by decide)
  have heq : Download "p1" "out.epub" { access := .ok { ContentUrls := some [{ DRMType := "SignedNoDrm", UrlFormat := "EPUB3", DownloadUrl := "u" }] }, dl := .midFail (.KoboError "net") } [] = (.error (.KoboError "net"), []) := by
    decide
  have h2 := h (.KoboError "net") [] heq
  rw [heq]
  exact ⟨h2.1, h2.2.1⟩

/-- C9: once the pipeline has reached the temporary path (descriptor
fetched, encoding selected), any failure runs the cleanup, which removes
whatever file sits at `outputPath` — including one that existed before
the call and that `Download` did not create. -/
theorem download_failure_removes_preexisting_output (pid out : String) (w : DownloadWorld)
    (fs : Fs) (resp : ContentAccessResponse) (url : String) (hasDrm : Bool)
    (hacc : w.access = .ok resp)
    (hinfo : GetDownloadInfo pid resp = .ok (url, hasDrm))
    (_hpre : fs.isfile out = true) :
    ∀ e fs2, Download pid out w fs = (.error e, fs2) →
      fs2.isfile out = false ∧ fs2.isfile (out ++ ".downloading") = false := by
  intro e fs2 hrun
  rw [Download_eval_try pid out w fs resp url hasDrm hacc hinfo] at hrun
  rcases h3 : downloadTryBody w hasDrm (out ++ ".downloading") out fs with ⟨tr, fs1⟩
  rw [h3] at hrun
  cases tr with
  | ok v => simp at hrun
  | error e3 =>
    simp at hrun
    obtain ⟨hee, hfs⟩ := hrun
    rw [← hfs]
    exact ⟨(downloadCleanup_isfile _ _ _).2, (downloadCleanup_isfile _ _ _).1⟩

/-- C9 witness: a file already at `book.epub` is gone after a `Download`
whose streaming step fails, checked through
`download_failure_removes_preexisting_output`. -/
theorem download_failure_removes_preexisting_output_witness :
    (Download "p2" "book.epub" { access := .ok { ContentUrls := some [{ DRMType := "SignedNoDrm", UrlFormat := "EPUB3", DownloadUrl := "u" }] }, dl := .midFail (.KoboError "net") } ["book.epub"]).2.isfile "book.epub" = false
    ∧ Fs.isfile ["book.epub"] "book.epub" = true := by
  have h := download_failure_removes_preexisting_output "p2" "book.epub"
    { access := .ok { ContentUrls := some [{ DRMType := "SignedNoDrm", UrlFormat := "EPUB3", DownloadUrl := "u" }] }, dl := .midFail (.KoboError "net") }
    ["book.epub"]
    { ContentUrls := some [{ DRMType := "SignedNoDrm", UrlFormat := "EPUB3", DownloadUrl := "u" }] }
    "u" false rfl (by decide) (by decide)
  have heq : Download "p2" "book.epub" { access := .ok { ContentUrls := some [{ DRMType := "SignedNoDrm", UrlFormat := "EPUB3", DownloadUrl := "u" }] }, dl := .midFail (.KoboError "net") } ["book.epub"] = (.error (.KoboError "net"), []) := by
    decide
  have h2 := h (.KoboError "net") [] heq
  rw [heq]
  exact ⟨h2.1, by decide⟩
